import Mathlib

/-!
Shallow embedding of the libewon M2Web client (src/m2web/client.rs,
src/m2web/error.rs, src/m2web/ewon.rs).

The HTTP transport and the JSON text parser are external collaborators
(reqwest, serde_json's lexer); they are modelled as black boxes: the
network is a function from the request (url path and query parameters)
to a transport outcome, and a response body is either an already-lexed
JSON tree or a lexer-level failure (malformed text / truncated input).
The structural part of deserialization (field lookup, required/optional
fields, type checks) is embedded faithfully from the serde derives on
`ApiResponse` and `Ewon`.
-/

set_option autoImplicit false

namespace Libewon

/-- JSON values, the output of the (black-box) JSON lexer/parser. -/
inductive Json where
  | null
  | bool (b : Bool)
  | num (n : Int)
  | str (s : String)
  | arr (elems : List Json)
  | obj (fields : List (String × Json))

/-- Classification of a `serde_json::Error`, mirroring its `is_syntax` /
`is_data` / `is_eof` predicates (plus the residual I/O category):
`synErr` for malformed JSON text, `dataErr` for data that does not match
the expected shape (wrong type, missing required field, wrong length),
`eofErr` for truncated or empty input, `otherErr` for the rest. -/
inductive SerdeError where
  | synErr (msg : String)
  | dataErr (msg : String)
  | eofErr (msg : String)
  | otherErr (msg : String)
deriving Repr, DecidableEq

/-- eWON device record, from `Ewon` in src/m2web/ewon.rs.
`custom_attributes` is `[String; 3]` in the source; it is a `List String`
here and the array length is enforced by the decoder (wire shape: exactly
three strings). -/
structure Ewon where
  id : Nat
  name : String
  encoded_name : String
  status : String
  description : String
  custom_attributes : List String
  m2web_server : String
  lan_devices : List String
  ewon_services : List String
deriving Repr, DecidableEq

/-- The `Default` derive on `Ewon`: every field takes its default value. -/
def Ewon.default : Ewon :=
  { id := 0, name := "", encoded_name := "", status := "", description := ""
    custom_attributes := ["", "", ""], m2web_server := "", lan_devices := []
    ewon_services := [] }

/-- Modelled from the spec: the response envelope `ApiResponse`
(src/m2web/ewon.rs) as the client code uses it. The snapshot of
`ApiResponse` under src/ declares only `success`, `ewon` and `ewons`,
yet `Client::login` reads `api_response.t2msession` and
`Client::request_api` reads `api_response.message`; those two fields are
taken from the spec (§6: `t2msession` (string) and `message` (string) are
optional envelope fields, defaulting to their empty form when absent,
like `ewon` and `ewons`). -/
structure ApiResponse where
  success : Bool
  ewon : Ewon
  ewons : List Ewon
  t2msession : String
  message : String
deriving Repr, DecidableEq

/-- Decode a JSON value as a `bool` (serde: wrong type is a data error). -/
def decodeBool : Json → Except SerdeError Bool
  | .bool b => .ok b
  | _ => .error (.dataErr "invalid type: expected a boolean")

/-- Decode a JSON value as a `String`. -/
def decodeString : Json → Except SerdeError String
  | .str s => .ok s
  | _ => .error (.dataErr "invalid type: expected a string")

/-- Decode a JSON value as a `u32` (a JSON integer in `[0, 2^32)`). -/
def decodeU32 : Json → Except SerdeError Nat
  | .num n =>
    if 0 ≤ n ∧ n < 4294967296 then .ok n.toNat
    else .error (.dataErr "invalid value: integer out of range for u32")
  | _ => .error (.dataErr "invalid type: expected u32")

/-- Decode a JSON value as a `Vec<String>`. -/
def decodeStrings : Json → Except SerdeError (List String)
  | .arr elems => elems.mapM decodeString
  | _ => .error (.dataErr "invalid type: expected an array of strings")

/-- Decode a JSON value as `[String; 3]`: an array of exactly three
strings (serde: a wrong length is a data error). -/
def decodeAttrs (j : Json) : Except SerdeError (List String) := do
  let elems ← decodeStrings j
  if elems.length = 3 then .ok elems
  else .error (.dataErr "invalid length, expected an array of 3 strings")

/-- A required struct field: absent keys are the serde data error
"missing field `name`". -/
def reqField {α : Type} (fields : List (String × Json)) (name : String)
    (dec : Json → Except SerdeError α) : Except SerdeError α :=
  match fields.lookup name with
  | some v => dec v
  | none => .error (.dataErr ("missing field `" ++ name ++ "`"))

/-- An optional struct field (`#[serde(default)]`): an absent key yields
the default; a present key must decode. -/
def optField {α : Type} (fields : List (String × Json)) (name : String)
    (dec : Json → Except SerdeError α) (dflt : α) : Except SerdeError α :=
  match fields.lookup name with
  | some v => dec v
  | none => .ok dflt

/-- Structural deserialization of `Ewon` (serde derive, camelCase wire
names): every field is required once a device object is present. -/
def decodeEwon (j : Json) : Except SerdeError Ewon :=
  match j with
  | .obj fields => do
    let id ← reqField fields "id" decodeU32
    let name ← reqField fields "name" decodeString
    let encoded_name ← reqField fields "encodedName" decodeString
    let status ← reqField fields "status" decodeString
    let description ← reqField fields "description" decodeString
    let custom_attributes ← reqField fields "customAttributes" decodeAttrs
    let m2web_server ← reqField fields "m2webServer" decodeString
    let lan_devices ← reqField fields "lanDevices" decodeStrings
    let ewon_services ← reqField fields "ewonServices" decodeStrings
    .ok { id, name, encoded_name, status, description, custom_attributes,
          m2web_server, lan_devices, ewon_services }
  | _ => .error (.dataErr "invalid type: expected a device object")

/-- Decode a JSON value as `Vec<Ewon>`. -/
def decodeEwons : Json → Except SerdeError (List Ewon)
  | .arr elems => elems.mapM decodeEwon
  | _ => .error (.dataErr "invalid type: expected an array of devices")

/-- Structural deserialization of `ApiResponse`: `success` is required,
the other envelope fields are `#[serde(default)]`. -/
def decodeApiResponse (j : Json) : Except SerdeError ApiResponse :=
  match j with
  | .obj fields => do
    let success ← reqField fields "success" decodeBool
    let ewon ← optField fields "ewon" decodeEwon Ewon.default
    let ewons ← optField fields "ewons" decodeEwons []
    let t2msession ← optField fields "t2msession" decodeString ""
    let message ← optField fields "message" decodeString ""
    .ok { success, ewon, ewons, t2msession, message }
  | _ => .error (.dataErr "invalid type: expected an object")

/-- A response body as handed to `serde_json::from_str`: either the
lexer produced a JSON tree, or it failed at the text level (malformed
input: `is_syntax`; truncated/empty input: `is_eof`). -/
inductive ParseResult where
  | parsed (j : Json)
  | malformed (msg : String)
  | truncated (msg : String)

/-- `serde_json::from_str::<ApiResponse>` on a body: lexer-level failures
keep their category, a lexed tree goes through structural decoding. -/
def serdeFromStr (body : ParseResult) : Except SerdeError ApiResponse :=
  match body with
  | .parsed j => decodeApiResponse j
  | .malformed msg => .error (.synErr msg)
  | .truncated msg => .error (.eofErr msg)

/-- Error kinds, from `ErrorKind` in src/m2web/error.rs. -/
inductive ErrorKind where
  | EmptyResponse (msg : String)
  | InternalError (msg : String)
  | InvalidCredentials (msg : String)
  | MissingOrWrongParameter (msg : String)
  | NoContent (msg : String)
  | ResponseParsing (msg : String)
  | StatelessAuthSet (msg : String)
  | UnknownError (msg : String)
deriving Repr, DecidableEq

/-- Client error, from `Error` in src/m2web/error.rs. -/
structure Error where
  code : Nat
  kind : ErrorKind
deriving Repr, DecidableEq

/-- `impl From<serde_json::Error> for Error` (src/m2web/error.rs):
code 500, `ResponseParsing`, with a prefix distinguishing the
syntax / data-shape / truncated / other sub-kinds. -/
def Error.fromSerde : SerdeError → Error
  | .synErr msg =>
    ⟨500, .ResponseParsing ("JSON response syntax error: " ++ msg)⟩
  | .dataErr msg =>
    ⟨500, .ResponseParsing
      ("JSON response data format does not match the expected one: " ++ msg)⟩
  | .eofErr msg =>
    ⟨500, .ResponseParsing
      ("An empty or incomplete response were received: " ++ msg)⟩
  | .otherErr msg =>
    ⟨500, .ResponseParsing
      ("Unknown error while parsing JSON response: " ++ msg)⟩

/-- A transport-level failure (`reqwest::Error`): either it reports a 403
status or not, which is all `From<reqwest::Error> for Error` inspects. -/
inductive TransportError where
  | forbidden (msg : String)
  | otherFailure (msg : String)
deriving Repr, DecidableEq

/-- `impl From<reqwest::Error> for Error` (src/m2web/error.rs). -/
def Error.fromTransport : TransportError → Error
  | .forbidden msg => ⟨403, .InvalidCredentials msg⟩
  | .otherFailure msg =>
    ⟨500, .UnknownError ("Unknown error while requesting API: " ++ msg)⟩

/-- Outcome of one HTTP GET: a transport failure, or a status code with
a response body. -/
inductive HttpResult where
  | failure (e : TransportError)
  | response (status : Nat) (body : ParseResult)

/-- The network as a black box: url path and query parameters to outcome. -/
abbrev Net := String → List (String × String) → HttpResult

/-- M2Web API client state, from `Client` in src/m2web/client.rs
(the `http_client` handle is replaced by the explicit `Net` argument of
each operation). -/
structure Client where
  t2m_url : String
  t2m_account : String
  t2m_username : String
  t2m_password : String
  t2m_developer_id : String
  stateful_auth : Bool
  t2m_session : Option String
deriving Repr, DecidableEq

/-- The authentication query parameters assembled at the top of
`Client::request_api` (src/m2web/client.rs lines 210-245): stateless mode
always sends the four credentials; stateful mode sends them for `login`,
and for any other endpoint requires a stored session token, failing with
403 `InvalidCredentials` before any network call when there is none. -/
def authQueryParams (c : Client) (url_path : String) :
    Except Error (List (String × String)) :=
  match c.stateful_auth with
  | true =>
    match url_path with
    | "login" =>
      .ok [("t2maccount", c.t2m_account), ("t2musername", c.t2m_username),
           ("t2mpassword", c.t2m_password),
           ("t2mdeveloperid", c.t2m_developer_id)]
    | _ =>
      match c.t2m_session with
      | some t2m_session =>
        .ok [("t2msession", t2m_session),
             ("t2mdeveloperid", c.t2m_developer_id)]
      | none =>
        .error ⟨403, .InvalidCredentials
          "No session opened, please login before requesting the API"⟩
  | false =>
    .ok [("t2maccount", c.t2m_account), ("t2musername", c.t2m_username),
         ("t2mpassword", c.t2m_password),
         ("t2mdeveloperid", c.t2m_developer_id)]

/-- The tail of `Client::request_api` after the response arrived
(src/m2web/client.rs lines 260-284): decode the body, then classify by
the `success` flag and the HTTP status code. Note the classification
matches the exact statuses 400 (`StatusCode::BAD_REQUEST`), 403 and 410;
every other non-success status maps to code 500 with the generic
(misspelled, as in the source) `UnknownError` message. -/
def processHttp (result : HttpResult) : Except Error ApiResponse :=
  match result with
  | .failure e => .error (Error.fromTransport e)
  | .response http_status body =>
    match serdeFromStr body with
    | .error e => .error (Error.fromSerde e)
    | .ok api_response =>
      match api_response.success with
      | true => .ok api_response
      | false =>
        if http_status = 400 then
          .error ⟨http_status, .MissingOrWrongParameter api_response.message⟩
        else if http_status = 403 then
          .error ⟨http_status, .InvalidCredentials api_response.message⟩
        else if http_status = 410 then
          .error ⟨http_status, .EmptyResponse api_response.message⟩
        else
          .error ⟨500, .UnknownError "Unkown error occurred"⟩

/-- `Client::request_api`: assemble authentication parameters, append the
endpoint-specific parameters, perform the GET, decode, classify. -/
def request_api (c : Client) (url_path : String)
    (req_query_params : Option (List (String × String))) (net : Net) :
    Except Error ApiResponse :=
  match authQueryParams c url_path with
  | .error e => .error e
  | .ok auth =>
    processHttp (net url_path (auth ++ req_query_params.getD []))

/-- `Client::login` (src/m2web/client.rs lines 59-72): only valid with
stateful auth; on success stores the returned session token. Returns the
result paired with the client state at exit. -/
def Client.login (c : Client) (net : Net) : Except Error String × Client :=
  if !c.stateful_auth then
    (.error ⟨500, .StatelessAuthSet "stateful_auth was not set"⟩, c)
  else
    match request_api c "login" none net with
    | .error e => (.error e, c)
    | .ok api_response =>
      (.ok api_response.t2msession,
       { c with t2m_session := some api_response.t2msession })

/-- `Client::logout` (src/m2web/client.rs lines 97-110): only valid with
stateful auth; the session token is cleared only after the remote call
succeeded. Returns the result paired with the client state at exit. -/
def Client.logout (c : Client) (net : Net) : Except Error Unit × Client :=
  if !c.stateful_auth then
    (.error ⟨500, .StatelessAuthSet "stateful_auth was not set"⟩, c)
  else
    match request_api c "logout" none net with
    | .error e => (.error e, c)
    | .ok _ => (.ok (), { c with t2m_session := none })

/-- `Client::get_ewons` (src/m2web/client.rs lines 138-150): list devices
with an optional pool filter; an empty decoded list becomes a 204
`NoContent` error. -/
def Client.get_ewons (c : Client) (pool : Option String) (net : Net) :
    Except Error (List Ewon) :=
  match request_api c "getewons" (some [("pool", pool.getD "")]) net with
  | .error e => .error e
  | .ok api_response =>
    if api_response.ewons.isEmpty then
      .error ⟨204, .NoContent "No eWON were returned by API"⟩
    else
      .ok api_response.ewons

/-- `Client::get_ewon_by_name` (src/m2web/client.rs lines 170-175). -/
def Client.get_ewon_by_name (c : Client) (name : String) (net : Net) :
    Except Error Ewon :=
  match request_api c "getewon" (some [("name", name)]) net with
  | .error e => .error e
  | .ok api_response => .ok api_response.ewon

/-- `Client::get_ewon_by_id` (src/m2web/client.rs lines 195-201). -/
def Client.get_ewon_by_id (c : Client) (id : Nat) (net : Net) :
    Except Error Ewon :=
  match request_api c "getewon" (some [("id", toString id)]) net with
  | .error e => .error e
  | .ok api_response => .ok api_response.ewon

/-- `Serialize` for `Ewon` (serde derive, camelCase wire names), used for
the encode/decode round trip. -/
def encodeEwon (e : Ewon) : Json :=
  .obj [("id", .num e.id), ("name", .str e.name),
        ("encodedName", .str e.encoded_name), ("status", .str e.status),
        ("description", .str e.description),
        ("customAttributes", .arr (e.custom_attributes.map Json.str)),
        ("m2webServer", .str e.m2web_server),
        ("lanDevices", .arr (e.lan_devices.map Json.str)),
        ("ewonServices", .arr (e.ewon_services.map Json.str))]

/-- The four credential query parameters of a client, in wire order. -/
def credParams (c : Client) : List (String × String) :=
  [("t2maccount", c.t2m_account), ("t2musername", c.t2m_username),
   ("t2mpassword", c.t2m_password), ("t2mdeveloperid", c.t2m_developer_id)]

/-- The error returned when a stateful client has no stored session. -/
def noSessionError : Error :=
  ⟨403, .InvalidCredentials
    "No session opened, please login before requesting the API"⟩

/-- Whether a decode attempt succeeded. -/
def decodeOk {α : Type} : Except SerdeError α → Bool
  | .ok _ => true
  | .error _ => false

/-- Spec-side predicate: the JSON value is a boolean. -/
def isBoolJ : Json → Bool
  | .bool _ => true
  | _ => false

/-- Spec-side predicate: the JSON value is a string. -/
def isStrJ : Json → Bool
  | .str _ => true
  | _ => false

/-- Spec-side predicate: the JSON value is an integer in u32 range. -/
def isU32J : Json → Bool
  | .num n => decide (0 ≤ n ∧ n < 4294967296)
  | _ => false

/-- Spec-side predicate: the JSON value is an array of strings. -/
def isStrArrJ : Json → Bool
  | .arr elems => elems.all isStrJ
  | _ => false

/-- Spec-side predicate: an array of exactly three strings. -/
def isAttrsJ : Json → Bool
  | .arr elems => elems.all isStrJ && decide (elems.length = 3)
  | _ => false

/-- Spec-side predicate: the key is present and its value satisfies `p`. -/
def reqKey (fields : List (String × Json)) (name : String) (p : Json → Bool) :
    Bool :=
  match fields.lookup name with
  | some v => p v
  | none => false

/-- Spec-side predicate: the key, if present, satisfies `p`; an absent
key is fine. -/
def optKey (fields : List (String × Json)) (name : String) (p : Json → Bool) :
    Bool :=
  match fields.lookup name with
  | some v => p v
  | none => true

/-- Spec-side predicate, following the spec's words (§4.1, §6): a device
object is present with all nine named fields of the right types
(`customAttributes` being exactly three strings). -/
def deviceOk : Json → Bool
  | .obj fields =>
    reqKey fields "id" isU32J && reqKey fields "name" isStrJ &&
    reqKey fields "encodedName" isStrJ && reqKey fields "status" isStrJ &&
    reqKey fields "description" isStrJ &&
    reqKey fields "customAttributes" isAttrsJ &&
    reqKey fields "m2webServer" isStrJ &&
    reqKey fields "lanDevices" isStrArrJ &&
    reqKey fields "ewonServices" isStrArrJ
  | _ => false

/-- Spec-side predicate: an array of well-formed device objects. -/
def devicesOk : Json → Bool
  | .arr elems => elems.all deviceOk
  | _ => false

/-- Spec-side predicate, following the spec's words (§4.1, §6): the
envelope is an object whose required `success` field is a boolean, and
whose optional fields — `ewon`, `ewons`, `t2msession`, `message` — are
each either absent or of the right shape. -/
def envelopeOk : Json → Bool
  | .obj fields =>
    reqKey fields "success" isBoolJ && optKey fields "ewon" deviceOk &&
    optKey fields "ewons" devicesOk && optKey fields "t2msession" isStrJ &&
    optKey fields "message" isStrJ
  | _ => false

/-- A concrete stateless-configured client, for concrete evaluations. -/
def statelessClient : Client :=
  { t2m_url := "https://m2web.talk2m.com/t2mapi", t2m_account := "account2"
    t2m_username := "username2", t2m_password := "password2"
    t2m_developer_id := "795f1844-2f5e-4d8b-9922-25c45d3e1c47"
    stateful_auth := false, t2m_session := none }

/-- A concrete stateful-configured client with no stored session. -/
def statefulClient : Client := { statelessClient with stateful_auth := true }

/-- A concrete stateful client holding a session token. -/
def sessionClient : Client :=
  { statefulClient with t2m_session := some "e44be62aaa9381707b5ab328c18d4a43" }

/-- A network whose every response is `{"success": true, "ewons": []}`. -/
def emptyEwonsNet : Net :=
  fun _ _ => .response 200
    (.parsed (.obj [("success", .bool true), ("ewons", .arr [])]))

/-- A device object as the wire carries it, for concrete evaluations. -/
def beaTestJson : Json :=
  .obj [("id", .num 1206698), ("name", .str "bea-test"),
        ("encodedName", .str "bea-test"), ("status", .str "offline"),
        ("description", .str ""),
        ("customAttributes", .arr [.str "bea", .str "", .str ""]),
        ("m2webServer", .str "eu2.m2web.talk2m.com"),
        ("lanDevices", .arr []), ("ewonServices", .arr [])]

/-- The same device record as a decoded value. -/
def beaTestEwon : Ewon :=
  { id := 1206698, name := "bea-test", encoded_name := "bea-test"
    status := "offline", description := ""
    custom_attributes := ["bea", "", ""]
    m2web_server := "eu2.m2web.talk2m.com", lan_devices := []
    ewon_services := [] }

/-- A network answering with one well-formed device in the list. -/
def oneEwonNet : Net :=
  fun _ _ => .response 200
    (.parsed (.obj [("success", .bool true), ("ewons", .arr [beaTestJson])]))

/-- A network answering 404 with a non-success envelope: a 400-class
status that is not exactly 400. -/
def notFoundNet : Net :=
  fun _ _ => .response 404
    (.parsed (.obj [("success", .bool false),
                    ("message", .str "endpoint not found")]))

/-- A network answering 400 with a non-success envelope. -/
def badRequestNet : Net :=
  fun _ _ => .response 400
    (.parsed (.obj [("success", .bool false),
                    ("message", .str "Missing mandatory parameter")]))

/-- A network answering 403 with a non-success envelope, as in the
repository's invalid-session logout test. -/
def invalidSessionNet : Net :=
  fun _ _ => .response 403
    (.parsed (.obj [("success", .bool false),
                    ("message", .str
                      "Session ID [0c94ef0b19b0c3b596115d4e5e1d2d02] is invalid")]))

/-- A network whose every response body is `{"success": true}` only. -/
def successOnlyNet : Net :=
  fun _ _ => .response 200 (.parsed (.obj [("success", .bool true)]))

/-- The repository test's device object with the required `status` field
absent (get_ewons_filled_missing_fields_ko). -/
def missingStatusJson : Json :=
  .obj [("id", .num 1206698), ("name", .str "bea-test"),
        ("encodedName", .str "bea-test"), ("description", .str ""),
        ("customAttributes", .arr [.str "bea", .str "", .str ""]),
        ("m2webServer", .str "eu2.m2web.talk2m.com"),
        ("lanDevices", .arr []), ("ewonServices", .arr [])]

/-- Helper: binding a successful `Except` computation just applies the
continuation. -/
theorem exceptOk_bind {ε α β : Type} (a : α) (f : α → Except ε β) :
    (Except.ok a >>= f : Except ε β) = f a := rfl

/-- Helper: binding a failed `Except` computation keeps the error. -/
theorem exceptError_bind {ε α β : Type} (e : ε) (f : α → Except ε β) :
    (Except.error e >>= f : Except ε β) = .error e := rfl

/-- Helper: decoding a list of encoded strings succeeds and is the
identity. -/
theorem decodeStrings_map_str (l : List String) :
    decodeStrings (.arr (l.map Json.str)) = .ok l := by
  induction l with
  | nil => rfl
  | cons a t ih =>
    have iht : List.mapM decodeString (t.map Json.str) = .ok t := ih
    show List.mapM decodeString ((a :: t).map Json.str) = .ok (a :: t)
    rw [List.map_cons, List.mapM_cons]
    simp only [iht, decodeString, exceptOk_bind]
    rfl

/-- Helper: success of a bound computation whose continuation succeeds
or fails uniformly. -/
theorem decodeOk_bind_const {α β : Type} (x : Except SerdeError α)
    (f : α → Except SerdeError β) (X : Bool)
    (hf : ∀ a, decodeOk (f a) = X) :
    decodeOk (x >>= f) = (decodeOk x && X) := by
  cases x with
  | ok a => rw [exceptOk_bind, hf a]; rfl
  | error e => rfl

/-- Helper: success of a required field followed by a continuation. -/
theorem decodeOk_reqField_bind {α β : Type} (fs : List (String × Json))
    (k : String) (dec : Json → Except SerdeError α) (p : Json → Bool)
    (hdec : ∀ v, decodeOk (dec v) = p v) (f : α → Except SerdeError β)
    (X : Bool) (hf : ∀ a, decodeOk (f a) = X) :
    decodeOk (reqField fs k dec >>= f) = (reqKey fs k p && X) := by
  unfold reqField reqKey
  cases fs.lookup k with
  | none => rfl
  | some v => rw [decodeOk_bind_const _ _ X hf, hdec]

/-- Helper: success of an optional field followed by a continuation. -/
theorem decodeOk_optField_bind {α β : Type} (fs : List (String × Json))
    (k : String) (dec : Json → Except SerdeError α) (dflt : α)
    (p : Json → Bool) (hdec : ∀ v, decodeOk (dec v) = p v)
    (f : α → Except SerdeError β) (X : Bool)
    (hf : ∀ a, decodeOk (f a) = X) :
    decodeOk (optField fs k dec dflt >>= f) = (optKey fs k p && X) := by
  unfold optField optKey
  cases fs.lookup k with
  | none => rw [exceptOk_bind, hf dflt]; rfl
  | some v => rw [decodeOk_bind_const _ _ X hf, hdec]

/-- Helper: `decodeBool` succeeds exactly on booleans. -/
theorem decodeOk_decodeBool (v : Json) :
    decodeOk (decodeBool v) = isBoolJ v := by
  cases v <;> rfl

/-- Helper: `decodeString` succeeds exactly on strings. -/
theorem decodeOk_decodeString (v : Json) :
    decodeOk (decodeString v) = isStrJ v := by
  cases v <;> rfl

/-- Helper: `decodeU32` succeeds exactly on integers in u32 range. -/
theorem decodeOk_decodeU32 (v : Json) :
    decodeOk (decodeU32 v) = isU32J v := by
  cases v <;> try rfl
  case num n =>
    simp only [decodeU32, isU32J]
    split
    · simp [decodeOk, *]
    · simp [decodeOk, *]

/-- Helper: element-wise string decoding succeeds exactly when every
element is a string. -/
theorem decodeOk_mapM_string (l : List Json) :
    decodeOk (List.mapM decodeString l) = l.all isStrJ := by
  induction l with
  | nil => rfl
  | cons a t ih =>
    rw [List.mapM_cons,
      decodeOk_bind_const (decodeString a)
        (fun x => List.mapM decodeString t >>= fun xs => pure (x :: xs))
        (t.all isStrJ)
        (fun x => by
          rw [decodeOk_bind_const (List.mapM decodeString t)
            (fun xs => pure (x :: xs)) true (fun xs => rfl), ih,
            Bool.and_true]),
      decodeOk_decodeString, List.all_cons]

/-- Helper: `decodeStrings` succeeds exactly on arrays of strings. -/
theorem decodeOk_decodeStrings (v : Json) :
    decodeOk (decodeStrings v) = isStrArrJ v := by
  cases v <;> try rfl
  case arr elems => exact decodeOk_mapM_string elems

/-- Helper: successful element-wise string decoding preserves length. -/
theorem mapM_string_length (l : List Json) :
    ∀ elems : List String,
      List.mapM decodeString l = .ok elems → elems.length = l.length := by
  induction l with
  | nil =>
    intro elems h
    rw [List.mapM_nil] at h
    cases h
    rfl
  | cons a t ih =>
    intro elems h
    rw [List.mapM_cons] at h
    cases ha : decodeString a with
    | error e => rw [ha, exceptError_bind] at h; cases h
    | ok s =>
      rw [ha, exceptOk_bind] at h
      cases hm : List.mapM decodeString t with
      | error e => rw [hm, exceptError_bind] at h; cases h
      | ok ts =>
        rw [hm, exceptOk_bind] at h
        cases h
        simp [ih ts hm]

/-- Helper: `decodeAttrs` succeeds exactly on arrays of exactly three
strings. -/
theorem decodeOk_decodeAttrs (v : Json) :
    decodeOk (decodeAttrs v) = isAttrsJ v := by
  have expand : decodeAttrs v = decodeStrings v >>= fun elems =>
      if elems.length = 3 then .ok elems
      else .error
        (.dataErr "invalid length, expected an array of 3 strings") := rfl
  rw [expand]
  cases v <;> try rfl
  case arr elems =>
    cases hm : List.mapM decodeString elems with
    | error e =>
      rw [show decodeStrings (.arr elems) = List.mapM decodeString elems
          from rfl, hm, exceptError_bind]
      have hall : elems.all isStrJ = false := by
        rw [← decodeOk_mapM_string, hm]; rfl
      simp [isAttrsJ, hall, decodeOk]
    | ok strs =>
      rw [show decodeStrings (.arr elems) = List.mapM decodeString elems
          from rfl, hm, exceptOk_bind]
      have hall : elems.all isStrJ = true := by
        rw [← decodeOk_mapM_string, hm]; rfl
      have hlen : strs.length = elems.length := mapM_string_length elems strs hm
      simp only [isAttrsJ, hall, Bool.true_and]
      split
      next hcond =>
        have h3 : elems.length = 3 := by omega
        simp [decodeOk, h3]
      next hcond =>
        have h3 : ¬elems.length = 3 := by omega
        simp [decodeOk, h3]

/-- Helper: `decodeEwon` succeeds exactly on well-formed device
objects. -/
theorem decodeOk_decodeEwon (j : Json) :
    decodeOk (decodeEwon j) = deviceOk j := by
  cases j <;> try rfl
  case obj fs =>
  have h9 : ∀ (i : Nat) (n en st de : String) (ca : List String)
      (ms : String) (ld : List String),
      decodeOk (reqField fs "ewonServices" decodeStrings >>= fun es =>
        (.ok { id := i, name := n, encoded_name := en, status := st
               description := de, custom_attributes := ca
               m2web_server := ms, lan_devices := ld, ewon_services := es } :
          Except SerdeError Ewon)) =
      reqKey fs "ewonServices" isStrArrJ := by
    intro i n en st de ca ms ld
    rw [decodeOk_reqField_bind fs "ewonServices" decodeStrings isStrArrJ
      decodeOk_decodeStrings
      (fun es =>
        (.ok { id := i, name := n, encoded_name := en, status := st
               description := de, custom_attributes := ca
               m2web_server := ms, lan_devices := ld, ewon_services := es } :
          Except SerdeError Ewon))
      true (fun a => rfl), Bool.and_true]
  have h8 : ∀ (i : Nat) (n en st de : String) (ca : List String)
      (ms : String),
      decodeOk (reqField fs "lanDevices" decodeStrings >>= fun ld =>
        reqField fs "ewonServices" decodeStrings >>= fun es =>
        (.ok { id := i, name := n, encoded_name := en, status := st
               description := de, custom_attributes := ca
               m2web_server := ms, lan_devices := ld, ewon_services := es } :
          Except SerdeError Ewon)) =
      (reqKey fs "lanDevices" isStrArrJ &&
        reqKey fs "ewonServices" isStrArrJ) := by
    intro i n en st de ca ms
    rw [decodeOk_reqField_bind fs _ _ isStrArrJ decodeOk_decodeStrings _
      (reqKey fs "ewonServices" isStrArrJ) (fun a => h9 i n en st de ca ms a)]
  have h7 : ∀ (i : Nat) (n en st de : String) (ca : List String),
      decodeOk (reqField fs "m2webServer" decodeString >>= fun ms =>
        reqField fs "lanDevices" decodeStrings >>= fun ld =>
        reqField fs "ewonServices" decodeStrings >>= fun es =>
        (.ok { id := i, name := n, encoded_name := en, status := st
               description := de, custom_attributes := ca
               m2web_server := ms, lan_devices := ld, ewon_services := es } :
          Except SerdeError Ewon)) =
      (reqKey fs "m2webServer" isStrJ && (reqKey fs "lanDevices" isStrArrJ &&
        reqKey fs "ewonServices" isStrArrJ)) := by
    intro i n en st de ca
    rw [decodeOk_reqField_bind fs _ _ isStrJ decodeOk_decodeString _
      (reqKey fs "lanDevices" isStrArrJ && reqKey fs "ewonServices" isStrArrJ)
      (fun a => h8 i n en st de ca a)]
  have h6 : ∀ (i : Nat) (n en st de : String),
      decodeOk (reqField fs "customAttributes" decodeAttrs >>= fun ca =>
        reqField fs "m2webServer" decodeString >>= fun ms =>
        reqField fs "lanDevices" decodeStrings >>= fun ld =>
        reqField fs "ewonServices" decodeStrings >>= fun es =>
        (.ok { id := i, name := n, encoded_name := en, status := st
               description := de, custom_attributes := ca
               m2web_server := ms, lan_devices := ld, ewon_services := es } :
          Except SerdeError Ewon)) =
      (reqKey fs "customAttributes" isAttrsJ && (reqKey fs "m2webServer" isStrJ
        && (reqKey fs "lanDevices" isStrArrJ &&
          reqKey fs "ewonServices" isStrArrJ))) := by
    intro i n en st de
    rw [decodeOk_reqField_bind fs _ _ isAttrsJ decodeOk_decodeAttrs _
      (reqKey fs "m2webServer" isStrJ && (reqKey fs "lanDevices" isStrArrJ &&
        reqKey fs "ewonServices" isStrArrJ))
      (fun a => h7 i n en st de a)]
  have h5 : ∀ (i : Nat) (n en st : String),
      decodeOk (reqField fs "description" decodeString >>= fun de =>
        reqField fs "customAttributes" decodeAttrs >>= fun ca =>
        reqField fs "m2webServer" decodeString >>= fun ms =>
        reqField fs "lanDevices" decodeStrings >>= fun ld =>
        reqField fs "ewonServices" decodeStrings >>= fun es =>
        (.ok { id := i, name := n, encoded_name := en, status := st
               description := de, custom_attributes := ca
               m2web_server := ms, lan_devices := ld, ewon_services := es } :
          Except SerdeError Ewon)) =
      (reqKey fs "description" isStrJ && (reqKey fs "customAttributes" isAttrsJ
        && (reqKey fs "m2webServer" isStrJ &&
          (reqKey fs "lanDevices" isStrArrJ &&
            reqKey fs "ewonServices" isStrArrJ)))) := by
    intro i n en st
    rw [decodeOk_reqField_bind fs _ _ isStrJ decodeOk_decodeString _
      (reqKey fs "customAttributes" isAttrsJ && (reqKey fs "m2webServer" isStrJ
        && (reqKey fs "lanDevices" isStrArrJ &&
          reqKey fs "ewonServices" isStrArrJ)))
      (fun a => h6 i n en st a)]
  have h4 : ∀ (i : Nat) (n en : String),
      decodeOk (reqField fs "status" decodeString >>= fun st =>
        reqField fs "description" decodeString >>= fun de =>
        reqField fs "customAttributes" decodeAttrs >>= fun ca =>
        reqField fs "m2webServer" decodeString >>= fun ms =>
        reqField fs "lanDevices" decodeStrings >>= fun ld =>
        reqField fs "ewonServices" decodeStrings >>= fun es =>
        (.ok { id := i, name := n, encoded_name := en, status := st
               description := de, custom_attributes := ca
               m2web_server := ms, lan_devices := ld, ewon_services := es } :
          Except SerdeError Ewon)) =
      (reqKey fs "status" isStrJ && (reqKey fs "description" isStrJ &&
        (reqKey fs "customAttributes" isAttrsJ &&
          (reqKey fs "m2webServer" isStrJ &&
            (reqKey fs "lanDevices" isStrArrJ &&
              reqKey fs "ewonServices" isStrArrJ))))) := by
    intro i n en
    rw [decodeOk_reqField_bind fs _ _ isStrJ decodeOk_decodeString _
      (reqKey fs "description" isStrJ && (reqKey fs "customAttributes" isAttrsJ
        && (reqKey fs "m2webServer" isStrJ &&
          (reqKey fs "lanDevices" isStrArrJ &&
            reqKey fs "ewonServices" isStrArrJ))))
      (fun a => h5 i n en a)]
  have h3 : ∀ (i : Nat) (n : String),
      decodeOk (reqField fs "encodedName" decodeString >>= fun en =>
        reqField fs "status" decodeString >>= fun st =>
        reqField fs "description" decodeString >>= fun de =>
        reqField fs "customAttributes" decodeAttrs >>= fun ca =>
        reqField fs "m2webServer" decodeString >>= fun ms =>
        reqField fs "lanDevices" decodeStrings >>= fun ld =>
        reqField fs "ewonServices" decodeStrings >>= fun es =>
        (.ok { id := i, name := n, encoded_name := en, status := st
               description := de, custom_attributes := ca
               m2web_server := ms, lan_devices := ld, ewon_services := es } :
          Except SerdeError Ewon)) =
      (reqKey fs "encodedName" isStrJ && (reqKey fs "status" isStrJ &&
        (reqKey fs "description" isStrJ &&
          (reqKey fs "customAttributes" isAttrsJ &&
            (reqKey fs "m2webServer" isStrJ &&
              (reqKey fs "lanDevices" isStrArrJ &&
                reqKey fs "ewonServices" isStrArrJ)))))) := by
    intro i n
    rw [decodeOk_reqField_bind fs _ _ isStrJ decodeOk_decodeString _
      (reqKey fs "status" isStrJ && (reqKey fs "description" isStrJ &&
        (reqKey fs "customAttributes" isAttrsJ &&
          (reqKey fs "m2webServer" isStrJ &&
            (reqKey fs "lanDevices" isStrArrJ &&
              reqKey fs "ewonServices" isStrArrJ)))))
      (fun a => h4 i n a)]
  have h2 : ∀ i : Nat,
      decodeOk (reqField fs "name" decodeString >>= fun n =>
        reqField fs "encodedName" decodeString >>= fun en =>
        reqField fs "status" decodeString >>= fun st =>
        reqField fs "description" decodeString >>= fun de =>
        reqField fs "customAttributes" decodeAttrs >>= fun ca =>
        reqField fs "m2webServer" decodeString >>= fun ms =>
        reqField fs "lanDevices" decodeStrings >>= fun ld =>
        reqField fs "ewonServices" decodeStrings >>= fun es =>
        (.ok { id := i, name := n, encoded_name := en, status := st
               description := de, custom_attributes := ca
               m2web_server := ms, lan_devices := ld, ewon_services := es } :
          Except SerdeError Ewon)) =
      (reqKey fs "name" isStrJ && (reqKey fs "encodedName" isStrJ &&
        (reqKey fs "status" isStrJ && (reqKey fs "description" isStrJ &&
          (reqKey fs "customAttributes" isAttrsJ &&
            (reqKey fs "m2webServer" isStrJ &&
              (reqKey fs "lanDevices" isStrArrJ &&
                reqKey fs "ewonServices" isStrArrJ))))))) := by
    intro i
    rw [decodeOk_reqField_bind fs _ _ isStrJ decodeOk_decodeString _
      (reqKey fs "encodedName" isStrJ &&
        (reqKey fs "status" isStrJ && (reqKey fs "description" isStrJ &&
          (reqKey fs "customAttributes" isAttrsJ &&
            (reqKey fs "m2webServer" isStrJ &&
              (reqKey fs "lanDevices" isStrArrJ &&
                reqKey fs "ewonServices" isStrArrJ))))))
      (fun a => h3 i a)]
  have h1 : decodeOk (decodeEwon (.obj fs)) =
      (reqKey fs "id" isU32J && (reqKey fs "name" isStrJ &&
        (reqKey fs "encodedName" isStrJ &&
          (reqKey fs "status" isStrJ && (reqKey fs "description" isStrJ &&
            (reqKey fs "customAttributes" isAttrsJ &&
              (reqKey fs "m2webServer" isStrJ &&
                (reqKey fs "lanDevices" isStrArrJ &&
                  reqKey fs "ewonServices" isStrArrJ)))))))) := by
    rw [show decodeEwon (.obj fs) =
        (reqField fs "id" decodeU32 >>= fun i =>
          reqField fs "name" decodeString >>= fun n =>
          reqField fs "encodedName" decodeString >>= fun en =>
          reqField fs "status" decodeString >>= fun st =>
          reqField fs "description" decodeString >>= fun de =>
          reqField fs "customAttributes" decodeAttrs >>= fun ca =>
          reqField fs "m2webServer" decodeString >>= fun ms =>
          reqField fs "lanDevices" decodeStrings >>= fun ld =>
          reqField fs "ewonServices" decodeStrings >>= fun es =>
          (.ok { id := i, name := n, encoded_name := en, status := st
                 description := de, custom_attributes := ca
                 m2web_server := ms, lan_devices := ld
                 ewon_services := es } : Except SerdeError Ewon)) from rfl,
      decodeOk_reqField_bind fs _ _ isU32J decodeOk_decodeU32 _
        (reqKey fs "name" isStrJ && (reqKey fs "encodedName" isStrJ &&
          (reqKey fs "status" isStrJ && (reqKey fs "description" isStrJ &&
            (reqKey fs "customAttributes" isAttrsJ &&
              (reqKey fs "m2webServer" isStrJ &&
                (reqKey fs "lanDevices" isStrArrJ &&
                  reqKey fs "ewonServices" isStrArrJ)))))))
        (fun a => h2 a)]
  rw [h1]
  simp [deviceOk, Bool.and_assoc]

/-- Helper: element-wise device decoding succeeds exactly when every
element is a well-formed device object. -/
theorem decodeOk_mapM_ewon (l : List Json) :
    decodeOk (List.mapM decodeEwon l) = l.all deviceOk := by
  induction l with
  | nil => rfl
  | cons a t ih =>
    rw [List.mapM_cons,
      decodeOk_bind_const (decodeEwon a)
        (fun x => List.mapM decodeEwon t >>= fun xs => pure (x :: xs))
        (t.all deviceOk)
        (fun x => by
          rw [decodeOk_bind_const (List.mapM decodeEwon t)
            (fun xs => pure (x :: xs)) true (fun xs => rfl), ih,
            Bool.and_true]),
      decodeOk_decodeEwon, List.all_cons]

/-- Helper: `decodeEwons` succeeds exactly on arrays of well-formed
device objects. -/
theorem decodeOk_decodeEwons (v : Json) :
    decodeOk (decodeEwons v) = devicesOk v := by
  cases v <;> try rfl
  case arr elems => exact decodeOk_mapM_ewon elems

/-- Helper: `decodeApiResponse` succeeds exactly on well-formed
envelopes. -/
theorem decodeOk_decodeApiResponse (j : Json) :
    decodeOk (decodeApiResponse j) = envelopeOk j := by
  cases j <;> try rfl
  case obj fs =>
  have g5 : ∀ (su : Bool) (ew : Ewon) (ews : List Ewon) (ts : String),
      decodeOk (optField fs "message" decodeString "" >>= fun ms =>
        (.ok { success := su, ewon := ew, ewons := ews, t2msession := ts
               message := ms } : Except SerdeError ApiResponse)) =
      optKey fs "message" isStrJ := by
    intro su ew ews ts
    rw [decodeOk_optField_bind fs "message" decodeString "" isStrJ
      decodeOk_decodeString
      (fun ms =>
        (.ok { success := su, ewon := ew, ewons := ews, t2msession := ts
               message := ms } : Except SerdeError ApiResponse))
      true (fun a => rfl), Bool.and_true]
  have g4 : ∀ (su : Bool) (ew : Ewon) (ews : List Ewon),
      decodeOk (optField fs "t2msession" decodeString "" >>= fun ts =>
        optField fs "message" decodeString "" >>= fun ms =>
        (.ok { success := su, ewon := ew, ewons := ews, t2msession := ts
               message := ms } : Except SerdeError ApiResponse)) =
      (optKey fs "t2msession" isStrJ && optKey fs "message" isStrJ) := by
    intro su ew ews
    rw [decodeOk_optField_bind fs "t2msession" decodeString "" isStrJ
      decodeOk_decodeString _ (optKey fs "message" isStrJ)
      (fun ts => g5 su ew ews ts)]
  have g3 : ∀ (su : Bool) (ew : Ewon),
      decodeOk (optField fs "ewons" decodeEwons [] >>= fun ews =>
        optField fs "t2msession" decodeString "" >>= fun ts =>
        optField fs "message" decodeString "" >>= fun ms =>
        (.ok { success := su, ewon := ew, ewons := ews, t2msession := ts
               message := ms } : Except SerdeError ApiResponse)) =
      (optKey fs "ewons" devicesOk && (optKey fs "t2msession" isStrJ &&
        optKey fs "message" isStrJ)) := by
    intro su ew
    rw [decodeOk_optField_bind fs "ewons" decodeEwons [] devicesOk
      decodeOk_decodeEwons _
      (optKey fs "t2msession" isStrJ && optKey fs "message" isStrJ)
      (fun ews => g4 su ew ews)]
  have g2 : ∀ su : Bool,
      decodeOk (optField fs "ewon" decodeEwon Ewon.default >>= fun ew =>
        optField fs "ewons" decodeEwons [] >>= fun ews =>
        optField fs "t2msession" decodeString "" >>= fun ts =>
        optField fs "message" decodeString "" >>= fun ms =>
        (.ok { success := su, ewon := ew, ewons := ews, t2msession := ts
               message := ms } : Except SerdeError ApiResponse)) =
      (optKey fs "ewon" deviceOk && (optKey fs "ewons" devicesOk &&
        (optKey fs "t2msession" isStrJ && optKey fs "message" isStrJ))) := by
    intro su
    rw [decodeOk_optField_bind fs "ewon" decodeEwon Ewon.default deviceOk
      decodeOk_decodeEwon _
      (optKey fs "ewons" devicesOk && (optKey fs "t2msession" isStrJ &&
        optKey fs "message" isStrJ))
      (fun ew => g3 su ew)]
  have g1 : decodeOk (decodeApiResponse (.obj fs)) =
      (reqKey fs "success" isBoolJ && (optKey fs "ewon" deviceOk &&
        (optKey fs "ewons" devicesOk && (optKey fs "t2msession" isStrJ &&
          optKey fs "message" isStrJ)))) := by
    rw [show decodeApiResponse (.obj fs) =
        (reqField fs "success" decodeBool >>= fun su =>
          optField fs "ewon" decodeEwon Ewon.default >>= fun ew =>
          optField fs "ewons" decodeEwons [] >>= fun ews =>
          optField fs "t2msession" decodeString "" >>= fun ts =>
          optField fs "message" decodeString "" >>= fun ms =>
          (.ok { success := su, ewon := ew, ewons := ews, t2msession := ts
                 message := ms } : Except SerdeError ApiResponse)) from rfl,
      decodeOk_reqField_bind fs "success" decodeBool isBoolJ
        decodeOk_decodeBool _
        (optKey fs "ewon" deviceOk && (optKey fs "ewons" devicesOk &&
          (optKey fs "t2msession" isStrJ && optKey fs "message" isStrJ)))
        (fun su => g2 su)]
  rw [g1]
  simp [envelopeOk, Bool.and_assoc]

/-- C6: on a client configured stateless (`stateful_auth = false`),
`login` returns the 500 `StatelessAuthSet` error and `logout` does the
same; both leave the client state unchanged and, since the network is
universally quantified on the left yet absent from the right-hand sides,
neither issues any network call. -/
theorem stateless_login_logout_rejected (c : Client)
    (h : c.stateful_auth = false) (net : Net) :
    c.login net =
      (.error ⟨500, .StatelessAuthSet "stateful_auth was not set"⟩, c) ∧
    c.logout net =
      (.error ⟨500, .StatelessAuthSet "stateful_auth was not set"⟩, c) := by
  constructor <;> simp [Client.login, Client.logout, h]

theorem stateless_login_logout_rejected_witness :
    statelessClient.login (fun _ _ => .failure (.otherFailure "unreachable")) =
      (.error ⟨500, .StatelessAuthSet "stateful_auth was not set"⟩,
       statelessClient) ∧
    statelessClient.logout (fun _ _ => .failure (.otherFailure "unreachable")) =
      (.error ⟨500, .StatelessAuthSet "stateful_auth was not set"⟩,
       statelessClient) :=
  stateless_login_logout_rejected statelessClient rfl _

/-- C2: on a stateful client with no stored session token, every
operation whose endpoint is not `login` — logout, list devices, get
device by name, get device by id — fails with the 403
`InvalidCredentials` "No session opened…" error; the network being
universally quantified while absent from the right-hand sides, zero
network calls are issued. When a token is stored, the assembled
authentication parameters are exactly the session token and the
developer id. -/
theorem stateful_requires_session (c : Client) (h : c.stateful_auth = true)
    (hs : c.t2m_session = none) :
    (∀ (net : Net) (pool : Option String) (name : String) (idv : Nat),
      c.get_ewons pool net = .error noSessionError ∧
      c.get_ewon_by_name name net = .error noSessionError ∧
      c.get_ewon_by_id idv net = .error noSessionError ∧
      (c.logout net).1 = .error noSessionError) ∧
    (∀ (tok : String) (url : String), url ≠ "login" →
      authQueryParams { c with t2m_session := some tok } url =
        .ok [("t2msession", tok), ("t2mdeveloperid", c.t2m_developer_id)]) := by
  constructor
  · intro net pool name idv
    refine ⟨?_, ?_, ?_, ?_⟩ <;>
      simp [Client.get_ewons, Client.get_ewon_by_name, Client.get_ewon_by_id,
        Client.logout, request_api, authQueryParams, h, hs, noSessionError]
  · intro tok url hurl
    simp [authQueryParams, h, hurl]

theorem stateful_requires_session_witness :
    (statefulClient.get_ewons none
        (fun _ _ => .failure (.otherFailure "unreachable")) =
      .error noSessionError ∧
    statefulClient.get_ewon_by_name "ewon42"
        (fun _ _ => .failure (.otherFailure "unreachable")) =
      .error noSessionError ∧
    statefulClient.get_ewon_by_id 42
        (fun _ _ => .failure (.otherFailure "unreachable")) =
      .error noSessionError ∧
    (statefulClient.logout
        (fun _ _ => .failure (.otherFailure "unreachable"))).1 =
      .error noSessionError) ∧
    authQueryParams sessionClient "getewons" =
      .ok [("t2msession", "e44be62aaa9381707b5ab328c18d4a43"),
           ("t2mdeveloperid", "795f1844-2f5e-4d8b-9922-25c45d3e1c47")] :=
  ⟨(stateful_requires_session statefulClient rfl rfl).1 _ none "ewon42" 42,
   (stateful_requires_session statefulClient rfl rfl).2
     "e44be62aaa9381707b5ab328c18d4a43" "getewons" (by decide)⟩

/-- C3: on a stateless-configured client the assembled authentication
parameters are exactly the four credentials for every endpoint; each
operation's request depends on the network only through the url path and
the parameter list made of those four credentials followed by its
endpoint-specific parameters (pool filter, device name, device id) —
so the request carries exactly those parameters; and a stateful client
calling the `login` endpoint attaches the same four credentials. -/
theorem stateless_credential_params (c : Client)
    (h : c.stateful_auth = false) :
    (∀ url : String, authQueryParams c url = .ok (credParams c)) ∧
    (∀ (pool : Option String) (net₁ net₂ : Net),
      net₁ "getewons" (credParams c ++ [("pool", pool.getD "")]) =
        net₂ "getewons" (credParams c ++ [("pool", pool.getD "")]) →
      c.get_ewons pool net₁ = c.get_ewons pool net₂) ∧
    (∀ (name : String) (net₁ net₂ : Net),
      net₁ "getewon" (credParams c ++ [("name", name)]) =
        net₂ "getewon" (credParams c ++ [("name", name)]) →
      c.get_ewon_by_name name net₁ = c.get_ewon_by_name name net₂) ∧
    (∀ (idv : Nat) (net₁ net₂ : Net),
      net₁ "getewon" (credParams c ++ [("id", toString idv)]) =
        net₂ "getewon" (credParams c ++ [("id", toString idv)]) →
      c.get_ewon_by_id idv net₁ = c.get_ewon_by_id idv net₂) ∧
    (∀ c' : Client, c'.stateful_auth = true →
      authQueryParams c' "login" = .ok (credParams c')) := by
  refine ⟨fun url => by simp [authQueryParams, h, credParams],
    fun pool net₁ net₂ hnet => ?_, fun name net₁ net₂ hnet => ?_,
    fun idv net₁ net₂ hnet => ?_,
    fun c' h' => by simp [authQueryParams, h', credParams]⟩ <;>
  · simp only [Client.get_ewons, Client.get_ewon_by_name,
      Client.get_ewon_by_id, request_api, authQueryParams, h,
      Option.getD_some]
    rw [show
        [("t2maccount", c.t2m_account), ("t2musername", c.t2m_username),
         ("t2mpassword", c.t2m_password),
         ("t2mdeveloperid", c.t2m_developer_id)] = credParams c from rfl,
      hnet]

theorem stateless_credential_params_witness :
    authQueryParams statelessClient "getewons" =
      .ok (credParams statelessClient) ∧
    statelessClient.get_ewons none emptyEwonsNet =
      statelessClient.get_ewons none
        (fun url qs =>
          if url = "getewons" ∧
              qs = credParams statelessClient ++ [("pool", "")] then
            .response 200
              (.parsed (.obj [("success", .bool true), ("ewons", .arr [])]))
          else .failure (.otherFailure "param list differs")) ∧
    authQueryParams statefulClient "login" = .ok (credParams statefulClient) :=
  ⟨(stateless_credential_params statelessClient rfl).1 "getewons",
   (stateless_credential_params statelessClient rfl).2.1 none _ _ rfl,
   (stateless_credential_params statelessClient rfl).2.2.2.2
     statefulClient rfl⟩

/-- C4: whenever the `getewons` request succeeds (decoded envelope with
`success = true`), `get_ewons` yields the 204 `NoContent` error exactly
when the decoded device list is empty — never `Ok` with an empty list —
and yields `Ok` with exactly the decoded devices, in order, otherwise. -/
theorem get_ewons_empty_is_no_content (c : Client) (pool : Option String)
    (net : Net) (r : ApiResponse)
    (h : request_api c "getewons" (some [("pool", pool.getD "")]) net =
      .ok r) :
    c.get_ewons pool net =
      if r.ewons.isEmpty then
        .error ⟨204, .NoContent "No eWON were returned by API"⟩
      else .ok r.ewons := by
  simp [Client.get_ewons, h]

theorem get_ewons_empty_is_no_content_witness :
    statelessClient.get_ewons none emptyEwonsNet =
      .error ⟨204, .NoContent "No eWON were returned by API"⟩ ∧
    statelessClient.get_ewons none oneEwonNet = .ok [beaTestEwon] :=
  ⟨get_ewons_empty_is_no_content statelessClient none emptyEwonsNet
      { success := true, ewon := Ewon.default, ewons := []
        t2msession := "", message := "" } rfl,
   get_ewons_empty_is_no_content statelessClient none oneEwonNet
      { success := true, ewon := Ewon.default, ewons := [beaTestEwon]
        t2msession := "", message := "" } rfl⟩

/-- C5: on a stateful client, when the remote `logout` call fails the
session token is left unchanged (the exit state is the entry state), and
the token is cleared exactly when the remote call succeeded. -/
theorem logout_clears_only_on_success (c : Client) (net : Net)
    (h : c.stateful_auth = true) :
    (∀ e : Error, (c.logout net).1 = .error e → (c.logout net).2 = c) ∧
    ((c.logout net).1 = .ok () →
      (c.logout net).2 = { c with t2m_session := none }) := by
  simp only [Client.logout, h, Bool.not_true, Bool.false_eq_true,
    if_false]
  cases request_api c "logout" none net with
  | error e => exact ⟨fun _ _ => rfl, fun hok => by simp at hok⟩
  | ok r => exact ⟨fun e he => by simp at he, fun _ => rfl⟩

theorem logout_clears_only_on_success_witness :
    ((sessionClient.logout invalidSessionNet).1 =
      .error ⟨403, .InvalidCredentials
        "Session ID [0c94ef0b19b0c3b596115d4e5e1d2d02] is invalid"⟩ ∧
     (sessionClient.logout invalidSessionNet).2 = sessionClient) ∧
    ((sessionClient.logout successOnlyNet).1 = .ok () ∧
     (sessionClient.logout successOnlyNet).2 =
       { sessionClient with t2m_session := none }) :=
  ⟨⟨rfl, (logout_clears_only_on_success sessionClient invalidSessionNet
      rfl).1 _ rfl⟩,
   ⟨rfl, (logout_clears_only_on_success sessionClient successOnlyNet
      rfl).2 rfl⟩⟩

/-- Helper: when the envelope object carries no `ewon` key, a successful
decode yields the defaulted device in the `ewon` slot
(`#[serde(default)]`). -/
theorem decode_no_ewon_default (fs : List (String × Json)) (r : ApiResponse)
    (hd : decodeApiResponse (.obj fs) = .ok r)
    (hewon : fs.lookup "ewon" = none) : r.ewon = Ewon.default := by
  rw [show decodeApiResponse (.obj fs) =
      (reqField fs "success" decodeBool >>= fun su =>
        optField fs "ewon" decodeEwon Ewon.default >>= fun ew =>
        optField fs "ewons" decodeEwons [] >>= fun ews =>
        optField fs "t2msession" decodeString "" >>= fun ts =>
        optField fs "message" decodeString "" >>= fun ms =>
        (.ok { success := su, ewon := ew, ewons := ews, t2msession := ts
               message := ms } : Except SerdeError ApiResponse)) from rfl]
    at hd
  cases hsu : reqField fs "success" decodeBool with
  | error e => rw [hsu, exceptError_bind] at hd; cases hd
  | ok su =>
    rw [hsu, exceptOk_bind,
      show optField fs "ewon" decodeEwon Ewon.default = .ok Ewon.default
        from by simp [optField, hewon],
      exceptOk_bind] at hd
    cases hews : optField fs "ewons" decodeEwons [] with
    | error e => rw [hews, exceptError_bind] at hd; cases hd
    | ok ews =>
      rw [hews, exceptOk_bind] at hd
      cases hts : optField fs "t2msession" decodeString "" with
      | error e => rw [hts, exceptError_bind] at hd; cases hd
      | ok ts =>
        rw [hts, exceptOk_bind] at hd
        cases hms : optField fs "message" decodeString "" with
        | error e => rw [hms, exceptError_bind] at hd; cases hd
        | ok ms =>
          rw [hms, exceptOk_bind] at hd
          cases hd
          rfl

/-- C10: for every response envelope that decodes successfully with
`success = true` and no single-device (`ewon`) field present — whatever
else the envelope carries and whatever the HTTP status — both
`get_ewon_by_name` and `get_ewon_by_id` return `Ok` with the defaulted
device (numeric id 0, every string field empty, the three custom
attributes empty, empty lists) rather than an error. -/
theorem get_ewon_defaults_when_absent (c : Client)
    (h : c.stateful_auth = false) (name : String) (idv : Nat) (st : Nat)
    (fs : List (String × Json)) (r : ApiResponse)
    (hd : decodeApiResponse (.obj fs) = .ok r) (hsu : r.success = true)
    (hewon : fs.lookup "ewon" = none) :
    c.get_ewon_by_name name
        (fun _ _ => .response st (.parsed (.obj fs))) =
      .ok { id := 0, name := "", encoded_name := "", status := ""
            description := "", custom_attributes := ["", "", ""]
            m2web_server := "", lan_devices := [], ewon_services := [] } ∧
    c.get_ewon_by_id idv
        (fun _ _ => .response st (.parsed (.obj fs))) =
      .ok { id := 0, name := "", encoded_name := "", status := ""
            description := "", custom_attributes := ["", "", ""]
            m2web_server := "", lan_devices := [], ewon_services := [] } := by
  have hdef : r.ewon = Ewon.default := decode_no_ewon_default fs r hd hewon
  have hreq : ∀ q : Option (List (String × String)),
      request_api c "getewon" q
        (fun _ _ => .response st (.parsed (.obj fs))) = .ok r := by
    intro q
    simp only [request_api, authQueryParams, h, processHttp, serdeFromStr,
      hd, hsu]
  constructor <;>
    simp [Client.get_ewon_by_name, Client.get_ewon_by_id, hreq, hdef,
      Ewon.default]

theorem get_ewon_defaults_when_absent_witness :
    statelessClient.get_ewon_by_name "ewon42"
        (fun _ _ => .response 200
          (.parsed (.obj [("success", .bool true),
                          ("ewons", .arr [beaTestJson]),
                          ("message", .str "no single-device field")]))) =
      .ok { id := 0, name := "", encoded_name := "", status := ""
            description := "", custom_attributes := ["", "", ""]
            m2web_server := "", lan_devices := [], ewon_services := [] } ∧
    statelessClient.get_ewon_by_id 42
        (fun _ _ => .response 200
          (.parsed (.obj [("success", .bool true),
                          ("ewons", .arr [beaTestJson]),
                          ("message", .str "no single-device field")]))) =
      .ok { id := 0, name := "", encoded_name := "", status := ""
            description := "", custom_attributes := ["", "", ""]
            m2web_server := "", lan_devices := [], ewon_services := [] } :=
  get_ewon_defaults_when_absent statelessClient rfl "ewon42" 42 200
    [("success", .bool true), ("ewons", .arr [beaTestJson]),
     ("message", .str "no single-device field")]
    { success := true, ewon := Ewon.default, ewons := [beaTestEwon]
      t2msession := "", message := "no single-device field" }
    rfl rfl rfl

/-- C1 (amended): for a response whose body decodes into an envelope,
when `success = true` the envelope is returned; when `success = false`
the outcome is classified by the exact HTTP status code: status 400 — not
any 400-class status — yields `MissingOrWrongParameter` carrying the
envelope's message and 400 as its code, 403 yields `InvalidCredentials`
and 410 yields `EmptyResponse`, each carrying the envelope's message and
that status as code, and any other status (including other 4xx statuses
such as 404) yields `UnknownError` with the generic message and
code 500. -/
theorem classify_by_http_status (c : Client) (h : c.stateful_auth = false)
    (url : String) (q : Option (List (String × String))) (st : Nat)
    (j : Json) (r : ApiResponse) (hd : decodeApiResponse j = .ok r) :
    request_api c url q (fun _ _ => .response st (.parsed j)) =
      if r.success then .ok r
      else if st = 400 then
        .error ⟨400, .MissingOrWrongParameter r.message⟩
      else if st = 403 then .error ⟨403, .InvalidCredentials r.message⟩
      else if st = 410 then .error ⟨410, .EmptyResponse r.message⟩
      else .error ⟨500, .UnknownError "Unkown error occurred"⟩ := by
  simp only [request_api, authQueryParams, h, processHttp, serdeFromStr, hd]
  cases hs : r.success with
  | true => simp [hs]
  | false =>
    simp only [hs, if_false, Bool.false_eq_true]
    by_cases h400 : st = 400
    · simp [h400]
    · by_cases h403 : st = 403
      · simp [h400, h403]
      · by_cases h410 : st = 410
        · simp [h400, h403, h410]
        · simp [h400, h403, h410]

theorem classify_by_http_status_witness :
    request_api statelessClient "getewons" none
        (fun _ _ => .response 400
          (.parsed (.obj [("success", .bool false),
                          ("message", .str "Missing mandatory parameter")]))) =
      .error ⟨400, .MissingOrWrongParameter "Missing mandatory parameter"⟩ ∧
    request_api statelessClient "login" none
        (fun _ _ => .response 403
          (.parsed (.obj [("success", .bool false),
                          ("message", .str "Invalid credentials")]))) =
      .error ⟨403, .InvalidCredentials "Invalid credentials"⟩ :=
  ⟨classify_by_http_status statelessClient rfl "getewons" none 400
      (.obj [("success", .bool false),
             ("message", .str "Missing mandatory parameter")])
      { success := false, ewon := Ewon.default, ewons := []
        t2msession := "", message := "Missing mandatory parameter" } rfl,
   classify_by_http_status statelessClient rfl "login" none 403
      (.obj [("success", .bool false),
             ("message", .str "Invalid credentials")])
      { success := false, ewon := Ewon.default, ewons := []
        t2msession := "", message := "Invalid credentials" } rfl⟩

/-- C1 counterexample: a 404 response — a 400-class status — whose body
decodes with `success = false` and message "endpoint not found" does not
yield a `MissingOrWrongParameter` error carrying that message and 404 as
its code, as the claim states for any 400-class status; the client
returns the generic 500 `UnknownError` instead. -/
theorem classify_by_http_status_counterexample :
    request_api statelessClient "getewons" none notFoundNet =
      .error ⟨500, .UnknownError "Unkown error occurred"⟩ ∧
    (Except.error ⟨500, .UnknownError "Unkown error occurred"⟩ :
        Except Error ApiResponse) ≠
      .error ⟨404, .MissingOrWrongParameter "endpoint not found"⟩ :=
  ⟨rfl, by simp⟩

/-- C9: encoding a device into the wire JSON shape (camelCase field
names) and decoding the result back yields the original device,
field-for-field; the hypotheses state the invariants the Rust types
enforce (`id` is a `u32`, `custom_attributes` is a `[String; 3]`). -/
theorem ewon_roundtrip (e : Ewon) (hid : e.id < 4294967296)
    (hlen : e.custom_attributes.length = 3) :
    decodeEwon (encodeEwon e) = .ok e := by
  have hu32 : decodeU32 (.num e.id) = .ok e.id := by
    simp only [decodeU32]
    rw [if_pos ⟨Int.natCast_nonneg e.id, by exact_mod_cast hid⟩]
    simp
  have hattrs : decodeAttrs (.arr (e.custom_attributes.map Json.str)) =
      .ok e.custom_attributes := by
    have expand : decodeAttrs (.arr (e.custom_attributes.map Json.str)) =
        decodeStrings (.arr (e.custom_attributes.map Json.str)) >>=
          fun elems =>
            if elems.length = 3 then .ok elems
            else .error
              (.dataErr "invalid length, expected an array of 3 strings") :=
      rfl
    rw [expand, decodeStrings_map_str e.custom_attributes, exceptOk_bind,
      if_pos hlen]
  have expand : decodeEwon (encodeEwon e) =
      decodeU32 (.num e.id) >>= fun idv =>
      decodeAttrs (.arr (e.custom_attributes.map Json.str)) >>= fun ca =>
      decodeStrings (.arr (e.lan_devices.map Json.str)) >>= fun ld =>
      decodeStrings (.arr (e.ewon_services.map Json.str)) >>= fun es =>
      .ok { id := idv, name := e.name, encoded_name := e.encoded_name
            status := e.status, description := e.description
            custom_attributes := ca, m2web_server := e.m2web_server
            lan_devices := ld, ewon_services := es } := rfl
  rw [expand, hu32, exceptOk_bind, hattrs, exceptOk_bind,
    decodeStrings_map_str e.lan_devices, exceptOk_bind,
    decodeStrings_map_str e.ewon_services, exceptOk_bind]

theorem ewon_roundtrip_witness :
    decodeEwon (encodeEwon beaTestEwon) = .ok beaTestEwon :=
  ewon_roundtrip beaTestEwon (by decide)
    (by simp [beaTestEwon])

/-- C7: envelope decoding succeeds exactly when the payload is an object
whose `success` field is a boolean (the one required envelope field) and
whose optional envelope-level fields — single device, device list,
session token, message — are each either absent or of the right shape;
so a missing optional field is never a decode failure, and decoding
fails exactly when a present field has the wrong type or a field inside
a present device record is absent (all nine device fields being required
once a device object is present, per `deviceOk`). When the optional
fields are all absent, each defaults to its empty form. -/
theorem decode_envelope_optional_fields :
    (∀ j : Json, decodeOk (decodeApiResponse j) = envelopeOk j) ∧
    (∀ b : Bool, decodeApiResponse (.obj [("success", .bool b)]) =
      .ok { success := b, ewon := Ewon.default, ewons := []
            t2msession := "", message := "" }) :=
  ⟨decodeOk_decodeApiResponse, fun _ => rfl⟩

/-- C8: every decode failure maps to a code-500 `ResponseParsing` error
whose message prefix distinguishes the sub-kind (syntax error,
data-shape error, truncated/empty input); the client propagates exactly
that error when the response body fails to decode; and a device record
missing its required `status` field produces a data-shape error whose
message names the missing field. -/
theorem decode_failure_response_parsing :
    (∀ m : String, Error.fromSerde (.synErr m) =
      ⟨500, .ResponseParsing ("JSON response syntax error: " ++ m)⟩) ∧
    (∀ m : String, Error.fromSerde (.dataErr m) =
      ⟨500, .ResponseParsing
        ("JSON response data format does not match the expected one: "
          ++ m)⟩) ∧
    (∀ m : String, Error.fromSerde (.eofErr m) =
      ⟨500, .ResponseParsing
        ("An empty or incomplete response were received: " ++ m)⟩) ∧
    (∀ c : Client, c.stateful_auth = false →
      ∀ (url : String) (q : Option (List (String × String))) (st : Nat)
        (body : ParseResult) (e : SerdeError),
      serdeFromStr body = .error e →
      request_api c url q (fun _ _ => .response st body) =
        .error (Error.fromSerde e)) ∧
    (decodeApiResponse
        (.obj [("success", .bool true),
               ("ewons", .arr [missingStatusJson])]) =
      .error (.dataErr "missing field `status`")) := by
  refine ⟨fun m => rfl, fun m => rfl, fun m => rfl, ?_, rfl⟩
  intro c h url q st body e hserde
  simp only [request_api, authQueryParams, h, processHttp, hserde]

theorem decode_failure_response_parsing_witness :
    request_api statelessClient "getewons" none
        (fun _ _ => .response 200
          (.malformed "expected value at line 1 column 1")) =
      .error ⟨500, .ResponseParsing
        "JSON response syntax error: expected value at line 1 column 1"⟩ ∧
    request_api statelessClient "getewons" none
        (fun _ _ => .response 200
          (.parsed (.obj [("success", .bool true),
                          ("ewons", .arr [missingStatusJson])]))) =
      .error ⟨500, .ResponseParsing
        "JSON response data format does not match the expected one: missing field `status`"⟩ :=
  ⟨decode_failure_response_parsing.2.2.2.1 statelessClient rfl "getewons"
      none 200 (.malformed "expected value at line 1 column 1")
      (.synErr "expected value at line 1 column 1") rfl,
   decode_failure_response_parsing.2.2.2.1 statelessClient rfl "getewons"
      none 200
      (.parsed (.obj [("success", .bool true),
                      ("ewons", .arr [missingStatusJson])]))
      (.dataErr "missing field `status`") rfl⟩

end Libewon
